import Mathlib

/-!
Verification of gcd-labs: a two-tier microservice in Go.

The compute service (embedded in `src/README.md`, `Computer`) runs the
iterative Euclidean algorithm over `uint64`:

    a, b := r.A, r.B
    for b != 0 {
      a, b = b, a%b
    }
    return &proto.GCDResponse{Result: a}, nil

The HTTP gateway (`src/api/main.go`) parses two decimal path parameters
with `strconv.ParseUint(s, 10, 64)`, forwards them over RPC, and renders
the result (or a 400/500 error) as JSON.

Since all intermediate values of the loop stay below the initial operands
(a remainder is strictly smaller than its divisor), `uint64` arithmetic
never wraps and the loop is modelled exactly by `Nat` arithmetic.
-/

/-- Upper bound of the `uint64` domain (`2^64`). -/
def UINT64_BOUND : Nat := 18446744073709551616

/-- Request message of the compute service (`proto.GCDRequest`): two
`uint64` fields `A` and `B`. -/
structure GCDRequest where
  A : Nat
  B : Nat
deriving Repr, DecidableEq

/-- Response message of the compute service (`proto.GCDResponse`): one
`uint64` field `Result`. -/
structure GCDResponse where
  Result : Nat
deriving Repr, DecidableEq

/-- The Euclidean loop of `Computer`: `for b != 0 { a, b = b, a%b }`,
returning the final `a`.  Terminates because `a % b < b` when `b ≠ 0`. -/
def computerLoop (a b : Nat) : Nat :=
  if b = 0 then a else computerLoop b (a % b)
termination_by b
decreasing_by exact Nat.mod_lt a (Nat.pos_of_ne_zero (by assumption))

/-- The `Computer` RPC handler from the server in `src/README.md`: runs the
Euclidean loop on the request fields and returns the response together with
the Go error value, which is always `nil` (modelled as `none`). -/
def Computer (r : GCDRequest) : GCDResponse × Option String :=
  (⟨computerLoop r.A r.B⟩, none)

/-- Division step guarded against a zero divisor: `a % b` when `b ≠ 0`,
signalling failure (`none`) if it were ever evaluated at `b = 0`. -/
def checkedMod (a b : Nat) : Option Nat :=
  if b = 0 then none else some (a % b)

/-- Fuel-indexed run of the Euclidean loop in which every `a % b` goes
through `checkedMod`: the run fails (`none`) if the fuel runs out or if the
remainder is ever taken with a zero divisor. -/
def loopRun : Nat → Nat → Nat → Option Nat
  | 0, _, _ => none
  | fuel + 1, a, b =>
    if b = 0 then some a
    else
      match checkedMod a b with
      | none => none
      | some r => loopRun fuel b r

/-- JSON values appearing in the gateway's `gin.H` response maps.  The type
records whether a value is rendered as a JSON string or a JSON number. -/
inductive JValue where
  | str (s : String)
  | num (n : Nat)
deriving Repr, DecidableEq

/-- An HTTP response produced by the gateway: a status code and the JSON
object (`gin.H`) serialized as the body. -/
structure HttpResponse where
  status : Nat
  body : List (String × JValue)
deriving Repr, DecidableEq

/-- Status code `http.StatusOK`. -/
def statusOK : Nat := 200

/-- Status code `http.StatusBadRequest`. -/
def statusBadRequest : Nat := 400

/-- Status code `http.StatusInternalServerError`. -/
def statusInternalServerError : Nat := 500

/-- Status code `http.StatusServiceUnavailable`. -/
def statusServiceUnavailable : Nat := 503

/-- Numeric value of a decimal digit character. -/
def digitVal (c : Char) : Nat := c.toNat - 48

/-- Core of `strconv.ParseUint(s, 10, 64)`: consume decimal digits,
accumulating the value, failing on any non-digit character or as soon as
the accumulated value leaves the `uint64` range. -/
def parseUintCore : List Char → Nat → Option Nat
  | [], acc => some acc
  | c :: cs, acc =>
    if c.isDigit then
      let n := acc * 10 + digitVal c
      if n < UINT64_BOUND then parseUintCore cs n else none
    else none

/-- Model of `strconv.ParseUint(s, 10, 64)` as used on `c.Param("a")` and
`c.Param("b")` in `src/api/main.go`: a non-empty string of decimal digits
whose value fits in 64 bits parses to that value; anything else (empty,
sign characters such as a leading minus, other non-digits, or overflow
past `2^64 - 1`) is an error, modelled as `none`. -/
def parseUint64 (s : String) : Option Nat :=
  match s.data with
  | [] => none
  | cs => parseUintCore cs 0

/-- The gin handler registered for `GET /gcd/:a/:b` in `src/api/main.go`,
parameterised by the RPC call `gcdClient.Computer` (which may fail at the
transport level with an error message).  It parses `a` then `b`, answering
`400` with an error object if either fails; otherwise it calls the compute
service and answers `200` with the result printed by `fmt.Sprint` under
the key `"result"`, or `500` with the error's message under `"error"`. -/
def gcdHandler (rpc : GCDRequest → Except String GCDResponse)
    (aParam bParam : String) : HttpResponse :=
  match parseUint64 aParam with
  | none => ⟨statusBadRequest, [("error", JValue.str "Invalid parameter A")]⟩
  | some a =>
    match parseUint64 bParam with
    | none => ⟨statusBadRequest, [("error", JValue.str "Invalid parameter B")]⟩
    | some b =>
      match rpc ⟨a, b⟩ with
      | Except.ok res =>
        ⟨statusOK, [("result", JValue.str (Nat.repr res.Result))]⟩
      | Except.error e =>
        ⟨statusInternalServerError, [("error", JValue.str e)]⟩

theorem computerLoop_zero (a : Nat) : computerLoop a 0 = a := by
  rw [computerLoop]
  simp

theorem computerLoop_step (a b : Nat) (hb : b ≠ 0) :
    computerLoop a b = computerLoop b (a % b) := by
  rw [computerLoop]
  simp [hb]

/-- The loop computes `Nat.gcd` of its arguments. -/
theorem computerLoop_eq_gcd (a b : Nat) : computerLoop a b = Nat.gcd a b := by
  induction b using Nat.strong_induction_on generalizing a with
  | _ b ih =>
    rcases Nat.eq_zero_or_pos b with hb | hb
    · subst hb; rw [computerLoop_zero, Nat.gcd_zero_right]
    · have hbne : b ≠ 0 := Nat.pos_iff_ne_zero.mp hb
      rw [computerLoop_step a b hbne, ih (a % b) (Nat.mod_lt a hb) b,
        Nat.gcd_comm b (a % b), ← Nat.gcd_rec b a, Nat.gcd_comm b a]

theorem loopRun_mono (f f' a b : Nat)
    (h : loopRun f a b = some (computerLoop a b)) (hle : f ≤ f') :
    loopRun f' a b = some (computerLoop a b) := by
  induction f generalizing f' a b with
  | zero => simp [loopRun] at h
  | succ n ihn =>
    cases f' with
    | zero => exact absurd hle (Nat.not_succ_le_zero n)
    | succ m =>
      simp only [loopRun] at h ⊢
      by_cases hb : b = 0
      · simpa [hb] using h
      · rw [if_neg hb] at h ⊢
        simp only [checkedMod, if_neg hb] at h ⊢
        rw [computerLoop_step a b hb] at h ⊢
        exact ihn m b (a % b) h (Nat.le_of_succ_le_succ hle)

/-- With fuel `b + 1`, the checked run completes and agrees with the loop:
in particular no remainder is ever taken with divisor `0`. -/
theorem loopRun_complete (a b : Nat) :
    loopRun (b + 1) a b = some (computerLoop a b) := by
  induction b using Nat.strong_induction_on generalizing a with
  | _ b ih =>
    rcases Nat.eq_zero_or_pos b with hb | hb
    · subst hb; simp [loopRun, computerLoop_zero]
    · have hbne : b ≠ 0 := Nat.pos_iff_ne_zero.mp hb
      have hlt : a % b < b := Nat.mod_lt a hb
      rw [computerLoop_step a b hbne]
      have hstep : loopRun (b + 1) a b = loopRun b b (a % b) := by
        simp [loopRun, hbne, checkedMod]
      rw [hstep]
      exact loopRun_mono (a % b + 1) b b (a % b) (ih (a % b) hlt b) hlt

theorem Computer_Result (r : GCDRequest) :
    (Computer r).1.Result = Nat.gcd r.A r.B := by
  simp [Computer, computerLoop_eq_gcd]

theorem Computer_err (r : GCDRequest) : (Computer r).2 = none := rfl

theorem mod_eq_zero_of_dvd (d n : Nat) (h : d ∣ n) : n % d = 0 := by
  obtain ⟨k, hk⟩ := h
  subst hk
  exact Nat.mul_mod_right d k

/-- C1: for every pair of `uint64` values `A`, `B`, the result `R` of
`Computer` is `gcd A B`: unless both inputs are `0`, `R` divides both
(`A % R = 0` and `B % R = 0`) and every common divisor is at most `R`;
and `R = 0` exactly when `A = 0` and `B = 0`. -/
theorem C1_computer_returns_gcd (A B : Nat)
    (hA : A < UINT64_BOUND) (hB : B < UINT64_BOUND) :
    (Computer ⟨A, B⟩).1.Result = Nat.gcd A B ∧
    (¬(A = 0 ∧ B = 0) →
      A % (Computer ⟨A, B⟩).1.Result = 0 ∧
      B % (Computer ⟨A, B⟩).1.Result = 0 ∧
      ∀ d : Nat, d ∣ A → d ∣ B → d ≤ (Computer ⟨A, B⟩).1.Result) ∧
    ((Computer ⟨A, B⟩).1.Result = 0 ↔ A = 0 ∧ B = 0) := by
  have hR : (Computer ⟨A, B⟩).1.Result = Nat.gcd A B := Computer_Result ⟨A, B⟩
  refine ⟨hR, ?_, ?_⟩
  · intro hnz
    have hpos : 0 < Nat.gcd A B := by
      rcases Nat.eq_zero_or_pos (Nat.gcd A B) with h0 | h
      · exact absurd (Nat.gcd_eq_zero_iff.mp h0) hnz
      · exact h
    refine ⟨?_, ?_, ?_⟩
    · rw [hR]
      exact mod_eq_zero_of_dvd _ _ (Nat.gcd_dvd_left A B)
    · rw [hR]
      exact mod_eq_zero_of_dvd _ _ (Nat.gcd_dvd_right A B)
    · intro d hdA hdB
      rw [hR]
      exact Nat.le_of_dvd hpos (Nat.dvd_gcd hdA hdB)
  · rw [hR]
    exact Nat.gcd_eq_zero_iff

theorem C1_computer_returns_gcd_witness :
    (294 : Nat) < UINT64_BOUND ∧ (462 : Nat) < UINT64_BOUND ∧
    ((Computer ⟨294, 462⟩).1.Result = Nat.gcd 294 462 ∧
    (¬((294 : Nat) = 0 ∧ (462 : Nat) = 0) →
      294 % (Computer ⟨294, 462⟩).1.Result = 0 ∧
      462 % (Computer ⟨294, 462⟩).1.Result = 0 ∧
      ∀ d : Nat, d ∣ 294 → d ∣ 462 → d ≤ (Computer ⟨294, 462⟩).1.Result) ∧
    ((Computer ⟨294, 462⟩).1.Result = 0 ↔ (294 : Nat) = 0 ∧ (462 : Nat) = 0)) :=
  ⟨by decide, by decide,
    C1_computer_returns_gcd 294 462 (by decide) (by decide)⟩

/-- C2: the Euclidean loop terminates for every `uint64` input pair within
`b + 1` iterations, and the checked run — in which `a % b` is only taken
after verifying `b ≠ 0` — completes without ever dividing by zero,
agreeing with the loop's result. -/
theorem C2_loop_terminates_no_div_zero (a b : Nat)
    (ha : a < UINT64_BOUND) (hb : b < UINT64_BOUND) :
    loopRun (b + 1) a b = some (computerLoop a b) :=
  loopRun_complete a b

theorem C2_loop_terminates_no_div_zero_witness :
    (294 : Nat) < UINT64_BOUND ∧ (462 : Nat) < UINT64_BOUND ∧
    loopRun 463 294 462 = some (computerLoop 294 462) :=
  ⟨by decide, by decide,
    C2_loop_terminates_no_div_zero 294 462 (by decide) (by decide)⟩

/-- C5: `Computer` never errors: on every request in the `uint64` domain it
returns a response carrying the gcd of the fields together with a `nil`
(`none`) error. -/
theorem C5_computer_never_errors (A B : Nat)
    (hA : A < UINT64_BOUND) (hB : B < UINT64_BOUND) :
    (Computer ⟨A, B⟩).2 = none ∧
    (Computer ⟨A, B⟩).1.Result = Nat.gcd A B :=
  ⟨Computer_err ⟨A, B⟩, Computer_Result ⟨A, B⟩⟩

theorem C5_computer_never_errors_witness :
    (17 : Nat) < UINT64_BOUND ∧ (5 : Nat) < UINT64_BOUND ∧
    ((Computer ⟨17, 5⟩).2 = none ∧
     (Computer ⟨17, 5⟩).1.Result = Nat.gcd 17 5) :=
  ⟨by decide, by decide, C5_computer_never_errors 17 5 (by decide) (by decide)⟩

/-- C6: `Computer` on `(A, 0)` returns `A`, on `(0, B)` returns `B`, and on
`(0, 0)` returns `0`. -/
theorem C6_zero_cases (A B : Nat)
    (hA : A < UINT64_BOUND) (hB : B < UINT64_BOUND) :
    (Computer ⟨A, 0⟩).1.Result = A ∧
    (Computer ⟨0, B⟩).1.Result = B ∧
    (Computer ⟨0, 0⟩).1.Result = 0 := by
  refine ⟨?_, ?_, ?_⟩
  · rw [Computer_Result]; exact Nat.gcd_zero_right A
  · rw [Computer_Result]; exact Nat.gcd_zero_left B
  · rw [Computer_Result]; exact Nat.gcd_self 0

theorem C6_zero_cases_witness :
    (7 : Nat) < UINT64_BOUND ∧ (9 : Nat) < UINT64_BOUND ∧
    ((Computer ⟨7, 0⟩).1.Result = 7 ∧
     (Computer ⟨0, 9⟩).1.Result = 9 ∧
     (Computer ⟨0, 0⟩).1.Result = 0) :=
  ⟨by decide, by decide, C6_zero_cases 7 9 (by decide) (by decide)⟩

/-- C7: `Computer` is commutative: swapping the request fields does not
change the result. -/
theorem C7_computer_commutative (A B : Nat)
    (hA : A < UINT64_BOUND) (hB : B < UINT64_BOUND) :
    (Computer ⟨A, B⟩).1.Result = (Computer ⟨B, A⟩).1.Result := by
  rw [Computer_Result, Computer_Result]
  exact Nat.gcd_comm A B

theorem C7_computer_commutative_witness :
    (48 : Nat) < UINT64_BOUND ∧ (18 : Nat) < UINT64_BOUND ∧
    (Computer ⟨48, 18⟩).1.Result = (Computer ⟨18, 48⟩).1.Result :=
  ⟨by decide, by decide, C7_computer_commutative 48 18 (by decide) (by decide)⟩

/-- C8: `Computer` on `(A, A)` returns `A`, and hence the function is
idempotent: feeding a result back in as both fields reproduces it. -/
theorem C8_computer_idempotent (A B : Nat)
    (hA : A < UINT64_BOUND) (hB : B < UINT64_BOUND) :
    (Computer ⟨A, A⟩).1.Result = A ∧
    (Computer ⟨(Computer ⟨A, B⟩).1.Result, (Computer ⟨A, B⟩).1.Result⟩).1.Result
      = (Computer ⟨A, B⟩).1.Result := by
  constructor
  · rw [Computer_Result]; exact Nat.gcd_self A
  · rw [Computer_Result]; exact Nat.gcd_self _

theorem C8_computer_idempotent_witness :
    (294 : Nat) < UINT64_BOUND ∧ (18 : Nat) < UINT64_BOUND ∧
    ((Computer ⟨294, 294⟩).1.Result = 294 ∧
     (Computer ⟨(Computer ⟨294, 18⟩).1.Result,
                (Computer ⟨294, 18⟩).1.Result⟩).1.Result
       = (Computer ⟨294, 18⟩).1.Result) :=
  ⟨by decide, by decide, C8_computer_idempotent 294 18 (by decide) (by decide)⟩

/-- C9: the concrete scenarios of the spec: `Computer` maps `(294, 462)` to
`42`, `(0, 5)` to `5`, `(17, 5)` to `1`, `(48, 18)` to `6`, and `(0, 0)`
to `0`. -/
theorem C9_concrete_scenarios :
    (Computer ⟨294, 462⟩).1.Result = 42 ∧
    (Computer ⟨0, 5⟩).1.Result = 5 ∧
    (Computer ⟨17, 5⟩).1.Result = 1 ∧
    (Computer ⟨48, 18⟩).1.Result = 6 ∧
    (Computer ⟨0, 0⟩).1.Result = 0 := by
  refine ⟨?_, ?_, ?_, ?_, ?_⟩ <;> rw [Computer_Result] <;> decide

/-- C4: whenever parameter `a` or parameter `b` fails to parse as a decimal
`uint64` (non-numeric, negative, or overflowing), the gateway answers with
HTTP 400 Bad Request, and the response is the same whatever the RPC does —
the compute service is not consulted at all. -/
theorem C4_bad_params_rejected_before_rpc
    (rpc rpc' : GCDRequest → Except String GCDResponse) (aParam bParam : String)
    (hfail : parseUint64 aParam = none ∨ parseUint64 bParam = none) :
    (gcdHandler rpc aParam bParam).status = statusBadRequest ∧
    gcdHandler rpc aParam bParam = gcdHandler rpc' aParam bParam := by
  rcases h : parseUint64 aParam with _ | a
  · constructor
    · simp [gcdHandler, h]
    · simp [gcdHandler, h]
  · have hb : parseUint64 bParam = none := by
      rcases hfail with hfa | hfb
      · rw [h] at hfa; exact absurd hfa (by simp)
      · exact hfb
    constructor
    · simp [gcdHandler, h, hb]
    · simp [gcdHandler, h, hb]

theorem C4_bad_params_rejected_before_rpc_witness :
    (parseUint64 "abc" = none ∨ parseUint64 "5" = none) ∧
    ((gcdHandler (fun r => Except.ok (Computer r).1) "abc" "5").status
        = statusBadRequest ∧
      gcdHandler (fun r => Except.ok (Computer r).1) "abc" "5"
        = gcdHandler (fun _ => Except.error "down") "abc" "5") :=
  ⟨Or.inl (by decide),
    C4_bad_params_rejected_before_rpc (fun r => Except.ok (Computer r).1)
      (fun _ => Except.error "down") "abc" "5" (Or.inl (by decide))⟩

/-- C10: on a successful computation the gateway answers 200 and its JSON
body carries the result under the key `"result"` as a decimal string (the
`fmt.Sprint` rendering of the `uint64`), not as a JSON number. -/
theorem C10_result_encoded_as_string
    (rpc : GCDRequest → Except String GCDResponse) (aParam bParam : String)
    (a b : Nat) (res : GCDResponse)
    (ha : parseUint64 aParam = some a) (hb : parseUint64 bParam = some b)
    (hrpc : rpc ⟨a, b⟩ = Except.ok res) :
    gcdHandler rpc aParam bParam
      = ⟨statusOK, [("result", JValue.str (Nat.repr res.Result))]⟩ := by
  simp [gcdHandler, ha, hb, hrpc]

theorem C10_result_encoded_as_string_witness :
    parseUint64 "48" = some 48 ∧ parseUint64 "18" = some 18 ∧
    (fun r => Except.ok (Computer r).1 : GCDRequest → Except String GCDResponse)
        ⟨48, 18⟩ = Except.ok ⟨6⟩ ∧
    gcdHandler (fun r => Except.ok (Computer r).1) "48" "18"
      = ⟨statusOK, [("result", JValue.str (Nat.repr 6))]⟩ := by
  have hres : (Computer ⟨48, 18⟩).1 = ⟨6⟩ := by
    have h : (Computer ⟨48, 18⟩).1.Result = 6 := by
      rw [Computer_Result]; decide
    cases hc : (Computer ⟨48, 18⟩).1 with
    | mk x => rw [hc] at h; simpa using h
  have hrpc :
      (fun r => Except.ok (Computer r).1 :
        GCDRequest → Except String GCDResponse) ⟨48, 18⟩
        = Except.ok (⟨6⟩ : GCDResponse) := by
    show Except.ok (Computer ⟨48, 18⟩).1 = Except.ok (⟨6⟩ : GCDResponse)
    rw [hres]
  exact ⟨by decide, by decide, hrpc,
    C10_result_encoded_as_string (fun r => Except.ok (Computer r).1)
      "48" "18" 48 18 ⟨6⟩ (by decide) (by decide) hrpc⟩

/-- C3 as stated fails: with a failing RPC (transport error) and valid
parameters, the gateway's status is `http.StatusInternalServerError`
(500), not `http.StatusServiceUnavailable` (503). -/
theorem C3_counterexample_rpc_failure_not_503 :
    (gcdHandler (fun _ => Except.error "connection refused") "294" "462").status
      = statusInternalServerError ∧
    (gcdHandler (fun _ => Except.error "connection refused") "294" "462").status
      ≠ statusServiceUnavailable := by
  constructor
  · decide
  · decide

/-- C3 (amended): when the RPC call to the compute service fails, the
gateway maps the failure to a server-error response — specifically HTTP
500 Internal Server Error (a 5xx status, though not 503 Service
Unavailable) — carrying the error's message under the key `"error"`. -/
theorem C3_rpc_failure_maps_to_server_error
    (rpc : GCDRequest → Except String GCDResponse) (aParam bParam : String)
    (a b : Nat) (e : String)
    (ha : parseUint64 aParam = some a) (hb : parseUint64 bParam = some b)
    (hrpc : rpc ⟨a, b⟩ = Except.error e) :
    gcdHandler rpc aParam bParam
      = ⟨statusInternalServerError, [("error", JValue.str e)]⟩ ∧
    500 ≤ (gcdHandler rpc aParam bParam).status ∧
    (gcdHandler rpc aParam bParam).status < 600 := by
  have h : gcdHandler rpc aParam bParam
      = ⟨statusInternalServerError, [("error", JValue.str e)]⟩ := by
    simp [gcdHandler, ha, hb, hrpc]
  refine ⟨h, ?_, ?_⟩
  · rw [h]
    show (500 : Nat) ≤ 500
    decide
  · rw [h]
    show (500 : Nat) < 600
    decide

theorem C3_rpc_failure_maps_to_server_error_witness :
    parseUint64 "294" = some 294 ∧ parseUint64 "462" = some 462 ∧
    (fun _ => Except.error "connection refused" :
        GCDRequest → Except String GCDResponse) ⟨294, 462⟩
      = Except.error "connection refused" ∧
    (gcdHandler (fun _ => Except.error "connection refused") "294" "462"
        = ⟨statusInternalServerError,
            [("error", JValue.str "connection refused")]⟩ ∧
      500 ≤ (gcdHandler (fun _ => Except.error "connection refused")
          "294" "462").status ∧
      (gcdHandler (fun _ => Except.error "connection refused")
          "294" "462").status < 600) :=
  ⟨by decide, by decide, rfl,
    C3_rpc_failure_maps_to_server_error
      (fun _ => Except.error "connection refused") "294" "462" 294 462
      "connection refused" (by decide) (by decide) rfl⟩
